import Mathlib

/- Shallow embedding of the stateless-to-stateful session continuity layer of
   the mcp-for-next.js repository: the server side lives in
   src/app/mcp-stateless/route.ts (RedisSessionStore, getRedisClient,
   ServerManager, getRequestSessionId, POST) and the client reconnect
   protocol in src/scripts/stateless.ts (makeRequestWithSessionCheck).
   Stateful TypeScript is modelled by explicit state passing; fallible code
   returns Except; collaborator outcomes (redis commands, server.connect,
   crypto.randomUUID, Date.now) are supplied through an environment record. -/

/-- JS truthiness of an optional string value: absent (undefined/null) and
    the empty string are falsy. -/
def strTruthy : Option String → Bool
  | none => false
  | some s => s != ""

/-- Field lookup in a JSON object modelled as an association list
    (first binding wins; the lists we build keep keys unique). -/
def lookupField : List (String × String) → String → Option String
  | [], _ => none
  | (k, v) :: rest, key => if k = key then some v else lookupField rest key

/-- JS property write obj[k] = v, and spread-with-override: replace the
    binding in place when the key is already present, else append it. -/
def setField : List (String × String) → String → String → List (String × String)
  | [], key, v => [(key, v)]
  | (k, w) :: rest, key, v =>
      if k = key then (key, v) :: rest else (k, w) :: setField rest key v

/-- Key update of a map modelled as a function into Option. -/
def setKey {α : Type} (m : String → Option α) (k : String) (v : α) :
    String → Option α :=
  fun k2 => if k2 = k then some v else m k2

/-- A value persisted in the session store. getSession applies JSON.parse
    with a return-as-is fallback for non-JSON data, so a stored value is
    either a JSON object (an association list of string fields; the
    serialise/parse round trip of the collaborating JSON library is the
    identity on this representation) or a plain string. -/
inductive SessionValue where
  | obj (fields : List (String × String))
  | str (s : String)
deriving DecidableEq

/-- The field list of a stored value, with the route.ts fallback
    (typeof sessionData === "object" ? sessionData : \x7b\x7d). -/
def SessionValue.objFields : SessionValue → List (String × String)
  | .obj f => f
  | .str _ => []

/-- JS truthiness of the raw redis payload backing a stored value: the raw
    string of an object is its JSON text (never empty), a plain string is
    falsy exactly when empty. Mirrors the (!data) check in getSession. -/
def SessionValue.rawTruthy : SessionValue → Bool
  | .obj _ => true
  | .str s => s != ""

/-- The module-level redis client handle (client.isOpen). -/
structure RedisClient where
  isOpen : Bool
deriving DecidableEq

/-- The module-level mutable redis state of route.ts: the client handle, the
    shared connection promise (none = null, some = settled outcome), the
    redis keyspace with per-key TTLs, and a counting stand-in for
    createNewSession invocations. -/
structure RedisState where
  client : Option RedisClient
  connPromise : Option (Except String Unit)
  values : String → Option SessionValue
  ttl : String → Option Nat
  mintCalls : Nat

/-- Collaborator outcomes: REDIS_URL presence, the result of
    redisClient.connect(), the result of redis commands, the current
    timestamp (new Date().toISOString()), the token minted by
    crypto.randomUUID(), and the outcome of the n-th server.connect call. -/
structure Env where
  urlConfigured : Bool
  connectOk : Bool
  opsOk : Bool
  now : String
  freshId : String
  serverConnectOk : Nat → Bool

/-- Creating and awaiting a fresh redisClientPromise (the async closure in
    getRedisClient). A missing URL throws before the inner try, so the
    rejected promise is kept; a failed connect() clears both the client and
    the promise and rethrows. -/
def connectAttempt (env : Env) (st : RedisState) :
    Except String (Option RedisClient) × RedisState :=
  if !env.urlConfigured then
    (.error "Redis connection URL not configured",
     { st with connPromise := some (.error "Redis connection URL not configured") })
  else if env.connectOk then
    (.ok (some ⟨true⟩),
     { st with client := some ⟨true⟩, connPromise := some (.ok ()) })
  else
    (.error "Redis connection error",
     { st with client := none, connPromise := none })

/-- Awaiting the shared redisClientPromise when the cached client is not
    open: reuse a settled promise, else run a fresh connection attempt. -/
def getRedisClientAwait (env : Env) (st : RedisState) :
    Except String (Option RedisClient) × RedisState :=
  match st.connPromise with
  | none => connectAttempt env st
  | some (.ok ()) => (.ok st.client, st)
  | some (.error e) => (.error e, st)

/-- getRedisClient(): return the open cached client if any, otherwise await
    the shared connection promise. -/
def getRedisClient (env : Env) (st : RedisState) :
    Except String (Option RedisClient) × RedisState :=
  match st.client with
  | some c => if c.isOpen then (.ok (some c), st) else getRedisClientAwait env st
  | none => getRedisClientAwait env st

/-- The namespaced redis key of a session (RedisSessionStore keeps its
    default "mcp:session:" namespace everywhere in route.ts). -/
def sessionKey (sessionId : String) : String := "mcp:session:" ++ sessionId

/-- RedisSessionStore.getSession: null client means absent; a redis command
    on a closed client or a failing command rejects; falsy raw data means
    absent; otherwise the parsed (or as-is) value. -/
def getSession (env : Env) (st : RedisState) (sessionId : String) :
    Except String (Option SessionValue) × RedisState :=
  match getRedisClient env st with
  | (.error e, st1) => (.error e, st1)
  | (.ok none, st1) => (.ok none, st1)
  | (.ok (some c), st1) =>
    if c.isOpen && env.opsOk then
      match st1.values (sessionKey sessionId) with
      | none => (.ok none, st1)
      | some v => if v.rawTruthy then (.ok (some v), st1) else (.ok none, st1)
    else (.error "Redis command failed", st1)

/-- RedisSessionStore.storeSession: no-op on a null client; otherwise
    redis.set of the serialised data followed by expire 3600 (a failing
    command rejects before writing). -/
def storeSession (env : Env) (st : RedisState) (sessionId : String)
    (data : SessionValue) : Except String Unit × RedisState :=
  match getRedisClient env st with
  | (.error e, st1) => (.error e, st1)
  | (.ok none, st1) => (.ok (), st1)
  | (.ok (some c), st1) =>
    if c.isOpen && env.opsOk then
      (.ok (),
       { st1 with
         values := setKey st1.values (sessionKey sessionId) data,
         ttl := setKey st1.ttl (sessionKey sessionId) 3600 })
    else (.error "Redis command failed", st1)

/-- RedisSessionStore.createNewSession: mint a fresh token
    (crypto.randomUUID, supplied by the environment), store the initial
    record, return the token. mintCalls counts invocations. -/
def createNewSession (env : Env) (st : RedisState) :
    Except String String × RedisState :=
  let st1 := { st with mintCalls := st.mintCalls + 1 }
  match storeSession env st1 env.freshId
      (.obj [("created", env.now), ("status", "active")]) with
  | (.error e, st2) => (.error e, st2)
  | (.ok (), st2) => (.ok env.freshId, st2)

/-- The mutable fields of the ServerManager singleton. hasServer/hasTransport
    model nullness of server/transport; transportSessionId models the private
    transport._sessionId; endpointGen identifies the current server+transport
    pair (bumped whenever initializeServer constructs a fresh pair);
    connectCalls counts server.connect invocations. -/
structure ManagerState where
  hasServer : Bool
  hasTransport : Bool
  transportSessionId : Option String
  isConnected : Bool
  initPromise : Option (Except String Unit)
  serverInitialized : Bool
  endpointGen : Nat
  connectCalls : Nat

/-- The record getServerAndTransport resolves with. The returned server and
    transport are identified by the generation of the pair. -/
structure GstResult where
  isNewSession : Bool
  newSessionId : Option String
  endpointGen : Nat
deriving DecidableEq

/-- The caught reconnect attempt of the ready branch: isConnected is set
    false, server.connect(transport) is awaited (outcome indexed by the call
    counter), and isConnected becomes true only on success; a failure is
    logged and swallowed. -/
def tryReconnect (env : Env) (ms : ManagerState) : ManagerState :=
  { ms with
    connectCalls := ms.connectCalls + 1,
    isConnected := env.serverConnectOk ms.connectCalls }

/-- The catch block of initializeServer: close and null out the server and
    the transport, drop connectedness (serverInitialized is left as it was,
    as in the source). -/
def initCleanup (ms : ManagerState) : ManagerState :=
  { ms with
    hasServer := false, hasTransport := false,
    transportSessionId := none, isConnected := false }

/-- ServerManager.initializeServer: construct a fresh McpServer with its
    registered prompt/tools/resource (collaborator side effects, identified
    by the bumped endpointGen) and a fresh transport (whose sessionId is not
    assigned until the transport handles an initialize request, so the
    initial storeSession guarded by transport.sessionId is skipped), ensure
    redis is reachable, connect the server to the transport, and record the
    server status keys; any failure runs the cleanup and rethrows. -/
def initializeServer (env : Env) (ms : ManagerState) (rs : RedisState) :
    (Except String Unit × ManagerState) × RedisState :=
  let ms1 : ManagerState :=
    { ms with
      hasServer := true, hasTransport := true,
      transportSessionId := none,
      endpointGen := ms.endpointGen + 1 }
  match getRedisClient env rs with
  | (.error e, rs1) => ((.error e, initCleanup ms1), rs1)
  | (.ok _, rs1) =>
    if env.serverConnectOk ms1.connectCalls then
      let ms2 : ManagerState :=
        { ms1 with
          connectCalls := ms1.connectCalls + 1,
          isConnected := true, serverInitialized := true }
      match getRedisClient env rs1 with
      | (.error e, rs2) => ((.error e, initCleanup ms2), rs2)
      | (.ok none, rs2) => ((.ok (), ms2), rs2)
      | (.ok (some c), rs2) =>
        if c.isOpen && env.opsOk then
          ((.ok (), ms2),
           { rs2 with
             values :=
               setKey (setKey rs2.values "mcp:server:status" (.str "connected"))
                 "mcp:server:lastInit" (.str env.now) })
        else ((.error "Redis command failed", initCleanup ms2), rs2)
    else
      ((.error "Server connect failed",
        initCleanup { ms1 with connectCalls := ms1.connectCalls + 1 }), rs1)

/-- One creation and await of a fresh serverInitPromise: the settled outcome
    is cached on the manager. -/
def runInitOnce (env : Env) (ms : ManagerState) (rs : RedisState) :
    (Except String Unit × ManagerState) × RedisState :=
  match initializeServer env ms rs with
  | ((.ok (), ms1), rs1) => ((.ok (), { ms1 with initPromise := some (.ok ()) }), rs1)
  | ((.error e, ms1), rs1) =>
      ((.error e, { ms1 with initPromise := some (.error e) }), rs1)

/-- Lines 233-254 of route.ts: create the shared promise when absent and
    await it; on rejection clear the guard and retry exactly once, the
    second rejection propagating with its promise left in place. Awaiting an
    already settled rejected promise likewise resets and retries once. -/
def awaitInit (env : Env) (ms : ManagerState) (rs : RedisState) :
    (Except String Unit × ManagerState) × RedisState :=
  match ms.initPromise with
  | some (.ok ()) => ((.ok (), ms), rs)
  | some (.error _) => runInitOnce env ms rs
  | none =>
    match runInitOnce env ms rs with
    | ((.ok (), ms1), rs1) => ((.ok (), ms1), rs1)
    | ((.error _, ms1), rs1) => runInitOnce env ms1 rs1

/-- The found branch of the ready path (route.ts lines 153-195): refresh the
    stored record with lastAccessed and status active, force the transport
    session id and attempt a caught reconnect only when the bound id
    differs, and return the existing pair with isNewSession false. -/
def readyFound (env : Env) (ms : ManagerState) (rs : RedisState)
    (sid : String) (sessionData : SessionValue) :
    (Except String GstResult × ManagerState) × RedisState :=
  match storeSession env rs sid
      (.obj (setField (setField sessionData.objFields "lastAccessed" env.now)
        "status" "active")) with
  | (.error e, rs1) => ((.error e, ms), rs1)
  | (.ok (), rs1) =>
    if ms.transportSessionId ≠ some sid then
      let ms1 := tryReconnect env { ms with transportSessionId := some sid }
      ((.ok ⟨false, none, ms1.endpointGen⟩, ms1), rs1)
    else
      ((.ok ⟨false, none, ms.endpointGen⟩, ms), rs1)

/-- The not-found branch of the ready path (route.ts lines 196-230): mint a
    new session, bind the transport to it, attempt a caught reconnect, and
    return the existing pair with isNewSession true. -/
def readyNotFound (env : Env) (ms : ManagerState) (rs : RedisState) :
    (Except String GstResult × ManagerState) × RedisState :=
  match createNewSession env rs with
  | (.error e, rs1) => ((.error e, ms), rs1)
  | (.ok newId, rs1) =>
    let ms1 := tryReconnect env { ms with transportSessionId := some newId }
    ((.ok ⟨true, some newId, ms1.endpointGen⟩, ms1), rs1)

/-- The initialization path (route.ts lines 233-293): await the shared
    initialization, fail the request when the endpoint is still not live,
    and on the first call after a fresh initialization restore a supplied
    session id onto the transport with a caught reconnect. -/
def initPath (env : Env) (ms : ManagerState) (rs : RedisState)
    (sessionId : Option String) :
    (Except String GstResult × ManagerState) × RedisState :=
  match awaitInit env ms rs with
  | ((.error e, ms1), rs1) => ((.error e, ms1), rs1)
  | ((.ok (), ms1), rs1) =>
    if !(ms1.hasServer && ms1.hasTransport && ms1.isConnected) then
      ((.error "Server initialization failed", ms1), rs1)
    else if ms1.serverInitialized && strTruthy sessionId then
      let ms2 := tryReconnect env
        { ms1 with transportSessionId := some (sessionId.getD "") }
      let ms3 := { ms2 with serverInitialized := false }
      ((.ok ⟨false, none, ms3.endpointGen⟩, ms3), rs1)
    else
      ((.ok ⟨false, none, ms1.endpointGen⟩, ms1), rs1)

/-- ServerManager.getServerAndTransport: the ready path runs when a truthy
    session id is supplied and the endpoint is live (server and transport
    present and connected); a store lookup error propagates; otherwise the
    initialization path runs. -/
def getServerAndTransport (env : Env) (ms : ManagerState) (rs : RedisState)
    (sessionId : Option String) :
    (Except String GstResult × ManagerState) × RedisState :=
  if strTruthy sessionId && ms.hasTransport && ms.hasServer && ms.isConnected then
    let sid := sessionId.getD ""
    match getSession env rs sid with
    | (.error e, rs1) => ((.error e, ms), rs1)
    | (.ok (some sessionData), rs1) => readyFound env ms rs1 sid sessionData
    | (.ok none, rs1) => readyNotFound env ms rs1
  else
    initPath env ms rs sessionId

/-- The embedded session-update directive of a result object
    (result.__session_update), with both ids optional as on the wire. -/
structure SessionUpdate where
  oldSessionId : Option String
  newSessionId : Option String
deriving DecidableEq

/-- A successful operation result as inspected by
    makeRequestWithSessionCheck: an opaque payload, whether the key
    __session_update is present, and its value when present (none models a
    present key holding a non-object such as null). -/
structure OpResult (α : Type) where
  payload : α
  hasUpdateKey : Bool
  update : Option SessionUpdate
deriving DecidableEq

/-- Lines 444-446 of stateless.ts: the directive fires when the key is
    present and both ids are truthy strings; the new id is returned. -/
def sessionUpdateRequested {α : Type} (r : OpResult α) : Option String :=
  if !r.hasUpdateKey then none
  else
    match r.update with
    | none => none
    | some u =>
      match u.oldSessionId, u.newSessionId with
      | some o, some n => if o != "" && n != "" then some n else none
      | _, _ => none

/-- Whether the second list starts with the first. -/
def listStartsWith : List Char → List Char → Bool
  | [], _ => true
  | _ :: _, [] => false
  | p :: ps, c :: cs => p == c && listStartsWith ps cs

/-- Whether the first list occurs inside the second. -/
def listOccursIn : List Char → List Char → Bool
  | pat, [] => pat.isEmpty
  | pat, c :: cs => listStartsWith pat (c :: cs) || listOccursIn pat cs

/-- Substring occurrence, used for the heuristic phrase matching that
    stateless.ts performs with String.prototype.includes. -/
def containsSubstr (s pat : String) : Bool := listOccursIn pat.data s.data

/-- An error thrown by an operation, as inspected by the recovery wrapper:
    its message text, and the decoded reset directive (the source extracts
    it by regex-matching the POSTing-error envelope and JSON.parsing the
    embedded payload for a truthy error.__reset_session; regex and JSON are
    collaborators, absorbed into this field). -/
structure ClientErr where
  text : String
  resetSession : Bool
deriving DecidableEq

/-- error.message.includes("Server already initialized"). -/
def ClientErr.alreadyInit (e : ClientErr) : Bool :=
  containsSubstr e.text "Server already initialized"

/-- error.message.includes("Server not initialized"). -/
def ClientErr.notInit (e : ClientErr) : Bool :=
  containsSubstr e.text "Server not initialized"

/-- error.message.includes("Session not found"). -/
def ClientErr.sessionNotFound (e : ClientErr) : Bool :=
  containsSubstr e.text "Session not found"

/-- The client-state manipulations the wrapper can perform between
    attempts, recorded as a trace. -/
inductive RecoveryAction where
  | reconnectWithNewSession (newSessionId : String)
  | forceCompletelyNewSession
  | clearSessionAndReconnect
deriving DecidableEq

/-- What a run of the wrapper produced: the value returned or error thrown,
    how many times the operation ran, and the recovery actions taken. -/
structure WrapOutcome (β : Type) where
  result : Except ClientErr β
  calls : Nat
  actions : List RecoveryAction

/-- The catch block of makeRequestWithSessionCheck (stateless.ts lines
    461-543). b gives the outcome of the n-th execution of the operation
    (numbered from 0); k executions have already happened; tr is the trace
    so far. The reset directive is checked first (retry once, a retry
    failure propagating); then the session-loss phrases: the
    already-initialized case retries as-is once and escalates a retry
    failure to forceCompletelyNewSession plus one more retry (whose failure
    propagates); the other phrases clear the session id, reconnect and
    retry once (a retry failure propagating); any other error rethrows. -/
def recoverFromError {α β : Type} (b : Nat → Except ClientErr (OpResult α))
    (handle : OpResult α → β) (e : ClientErr) (k : Nat)
    (tr : List RecoveryAction) : WrapOutcome β :=
  if e.resetSession then
    match b k with
    | .ok r => ⟨.ok (handle r), k + 1, tr ++ [.forceCompletelyNewSession]⟩
    | .error re => ⟨.error re, k + 1, tr ++ [.forceCompletelyNewSession]⟩
  else if e.notInit || e.sessionNotFound || e.alreadyInit then
    if e.alreadyInit then
      match b k with
      | .ok r => ⟨.ok (handle r), k + 1, tr⟩
      | .error _ =>
        match b (k + 1) with
        | .ok r => ⟨.ok (handle r), k + 2, tr ++ [.forceCompletelyNewSession]⟩
        | .error re => ⟨.error re, k + 2, tr ++ [.forceCompletelyNewSession]⟩
    else
      match b k with
      | .ok r => ⟨.ok (handle r), k + 1, tr ++ [.clearSessionAndReconnect]⟩
      | .error re => ⟨.error re, k + 1, tr ++ [.clearSessionAndReconnect]⟩
  else ⟨.error e, k, tr⟩

/-- makeRequestWithSessionCheck(requestFn, handleResult): run the operation;
    a successful result carrying the session-update directive triggers
    reconnectWithNewSession with the new id and one retry inside the same
    try block (so a retry failure falls into the catch); any thrown error
    goes through recoverFromError. -/
def makeRequestWithSessionCheck {α β : Type}
    (b : Nat → Except ClientErr (OpResult α)) (handle : OpResult α → β) :
    WrapOutcome β :=
  match b 0 with
  | .ok r1 =>
    match sessionUpdateRequested r1 with
    | some newId =>
      match b 1 with
      | .ok r2 => ⟨.ok (handle r2), 2, [.reconnectWithNewSession newId]⟩
      | .error e => recoverFromError b handle e 2 [.reconnectWithNewSession newId]
    | none => ⟨.ok (handle r1), 1, []⟩
  | .error e => recoverFromError b handle e 1 []

/-- The state read and written by the synchronous initialization guard of
    getServerAndTransport (route.ts lines 234-239): the shared pending
    promise (identified by a number), the next promise identity, and a
    counting stand-in for how many initializeServer sequences were
    started. In the JS event loop this check-and-set segment runs without
    interleaving, so one arrival is one atomic step. -/
structure InitGuardState where
  pendingInit : Option Nat
  nextPromiseId : Nat
  initStarts : Nat
deriving DecidableEq

/-- One first-time caller reaching the guard: create and publish the shared
    promise when absent, else adopt the published one; returns the promise
    the caller awaits. -/
def initGuardArrive (s : InitGuardState) : Nat × InitGuardState :=
  match s.pendingInit with
  | some p => (p, s)
  | none =>
    (s.nextPromiseId,
     { pendingInit := some s.nextPromiseId,
       nextPromiseId := s.nextPromiseId + 1,
       initStarts := s.initStarts + 1 })

/-- n concurrent first-time callers arriving in some order; returns the
    final guard state and the promise each caller awaits. -/
def initGuardRun : Nat → InitGuardState → InitGuardState × List Nat
  | 0, s => (s, [])
  | n + 1, s =>
    let a := initGuardArrive s
    let rest := initGuardRun n a.2
    (rest.1, a.1 :: rest.2)

/-- A byte-stream event of the adapted request body. -/
inductive StreamEvent where
  | data (chunk : String)
  | eos
deriving DecidableEq

/-- The inbound fetch-style Request at the boundary createFakeIncomingMessage
    reads: method, the parsed URL (pathname and search, URL parsing being a
    collaborator), and headers as produced by
    Object.fromEntries(request.headers.entries()) (the Headers collaborator
    lower-cases names and keeps each name once). -/
structure InboundRequest where
  method : String
  pathname : String
  search : String
  headers : List (String × String)
deriving DecidableEq

/-- The observable surface of the fake IncomingMessage: the copied method,
    the rebuilt url, the (possibly augmented) headers, and the events its
    Readable emits. -/
structure FakeIncomingMessage where
  method : String
  url : String
  headers : List (String × String)
  events : List StreamEvent
deriving DecidableEq

/-- ServerManager.createFakeIncomingMessage (route.ts lines 508-562): copy
    the method, rebuild the url as pathname plus search, override the
    session header when a truthy session id is supplied, and push the body
    onto the Readable followed by null; the push pair is guarded by the
    truthiness of the body, so an empty body pushes nothing at all. -/
def createFakeIncomingMessage (req : InboundRequest) (body : String)
    (sessionId : Option String) : FakeIncomingMessage :=
  let headers :=
    if strTruthy sessionId then
      setField req.headers "x-mcp-session-id" (sessionId.getD "")
    else req.headers
  { method := req.method,
    url := req.pathname ++ req.search,
    headers := headers,
    events := if body != "" then [.data body, .eos] else [] }

/-- The request surface getRequestSessionId reads: the session header as
    returned by req.headers.get, the parsed query parameters, and whether
    new URL(req.url) succeeds (its failure is caught and logged). -/
structure ResolverRequest where
  headers : List (String × String)
  queryParams : List (String × String)
  urlParses : Bool
deriving DecidableEq

/-- getRequestSessionId (route.ts lines 566-587): a truthy session header
    wins; else a truthy sessionId query parameter of a parseable URL; else
    absent. A present but empty header or parameter is falsy and is
    skipped. -/
def getRequestSessionId (req : ResolverRequest) : Option String :=
  match lookupField req.headers "x-mcp-session-id" with
  | some s =>
    if s != "" then some s
    else
      if req.urlParses then
        match lookupField req.queryParams "sessionId" with
        | some q => if q != "" then some q else none
        | none => none
      else none
  | none =>
    if req.urlParses then
      match lookupField req.queryParams "sessionId" with
      | some q => if q != "" then some q else none
      | none => none
    else none

/-- Drop an optional string that is absent or empty. -/
def keepNonEmpty : Option String → Option String
  | none => none
  | some s => if s = "" then none else some s

/-- Modelled from the spec sentence, for comparison with the source
    translation: the first non-empty identifier among the session header
    and the sessionId query parameter of a parseable URL. -/
def resolveSessionIdSpec (req : ResolverRequest) : Option String :=
  match keepNonEmpty (lookupField req.headers "x-mcp-session-id") with
  | some s => some s
  | none =>
    if req.urlParses then
      keepNonEmpty (lookupField req.queryParams "sessionId")
    else none

/-- A JSON-RPC success result object at the granularity the POST handler
    manipulates it: whether it carries the __session_update field and, when
    it does, the two ids inside it (all other fields are opaque). -/
structure RpcResult where
  hasUpdateField : Bool
  updateOld : Option String
  updateNew : Option String
deriving DecidableEq

/-- The response-shape decision of the POST handler after
    getServerAndTransport resolves (route.ts lines 733-820): only when a
    new session was minted, the new id is truthy and the client presented a
    truthy session id, AND the parsed body method is exactly "tools/list",
    the handler answers with the internally collected tools result spread
    together with an injected __session_update; on every other path the
    transport response passes through untouched. -/
def postResponseResult (clientSessionId : Option String) (isNewSession : Bool)
    (newSessionId : Option String) (method : Option String)
    (toolsResult transportResult : RpcResult) : RpcResult :=
  if isNewSession && strTruthy newSessionId && strTruthy clientSessionId then
    if method == some "tools/list" then
      { toolsResult with
        hasUpdateField := true,
        updateOld := clientSessionId,
        updateNew := newSessionId }
    else transportResult
  else transportResult

theorem setKey_self {α : Type} (m : String → Option α) (k : String) (v : α) :
    setKey m k v k = some v := by
  simp [setKey]

theorem setKey_other {α : Type} (m : String → Option α) (k k2 : String) (v : α)
    (h : k2 ≠ k) : setKey m k v k2 = m k2 := by
  simp [setKey, h]

theorem setKey_idem {α : Type} (m : String → Option α) (k : String) (v : α) :
    setKey (setKey m k v) k v = setKey m k v := by
  funext k2
  by_cases h : k2 = k <;> simp [setKey, h]

theorem lookupField_setField_self (l : List (String × String)) (k v : String) :
    lookupField (setField l k v) k = some v := by
  induction l with
  | nil => simp [setField, lookupField]
  | cons p rest ih =>
    by_cases h : p.1 = k
    · simp [setField, lookupField, h]
    · simp [setField, lookupField, h, ih]

theorem lookupField_setField_other (l : List (String × String)) (k k2 v : String)
    (h : k2 ≠ k) : lookupField (setField l k v) k2 = lookupField l k2 := by
  induction l with
  | nil => simp [setField, lookupField, Ne.symm h]
  | cons p rest ih =>
    by_cases hp : p.1 = k
    · simp [setField, lookupField, hp, Ne.symm h]
    · by_cases hp2 : p.1 = k2 <;> simp [setField, lookupField, hp, hp2, h, ih]

/-- A base environment: redis configured and healthy, fixed clock and
    token. -/
def env0 : Env :=
  { urlConfigured := true, connectOk := true, opsOk := true,
    now := "2026-01-01T00:00:00.000Z", freshId := "fresh-uuid",
    serverConnectOk := fun _ => true }

/-- An environment whose redis connection attempt fails. -/
def envConnFail : Env := { env0 with connectOk := false }

/-- The module state before any redis interaction: no client, no promise,
    empty keyspace. -/
def rsEmpty : RedisState :=
  { client := none, connPromise := some (.ok ()), values := fun _ => none,
    ttl := fun _ => none, mintCalls := 0 }

/-- The module state right at process start: no client and no promise. -/
def rsStart : RedisState :=
  { client := none, connPromise := none, values := fun _ => none,
    ttl := fun _ => none, mintCalls := 0 }

/-- Claim C3, counterexample: with the store unreachable (the connection
    attempt rejects), getSession propagates the connection error instead of
    returning absent, and storeSession propagates it to its caller as
    well. -/
theorem c3_store_unreachable_throws :
    (getSession envConnFail rsStart "abc").1 = .error "Redis connection error" ∧
    (storeSession envConnFail rsStart "abc" (.str "x")).1 =
      .error "Redis connection error" :=
  ⟨rfl, rfl⟩

/-- Claim C3 as amended: only when getRedisClient resolves to a null client
    does getSession return absent and storeSession return without writing;
    both leave the store state exactly as getRedisClient left it. (When the
    connection attempt or a redis command rejects, both methods propagate
    the error, as the counterexample shows.) -/
theorem c3_null_client_degrades (env : Env) (st st1 : RedisState)
    (sid : String) (d : SessionValue)
    (h : getRedisClient env st = (.ok none, st1)) :
    getSession env st sid = (.ok none, st1) ∧
    storeSession env st sid d = (.ok (), st1) := by
  constructor <;> simp [getSession, storeSession, h]

/-- Claim C3 witness: a state whose settled connection promise left a null
    client handle. -/
theorem c3_null_client_degrades_witness :
    getRedisClient env0 rsEmpty = (.ok none, rsEmpty) ∧
    (getSession env0 rsEmpty "abc" = (.ok none, rsEmpty) ∧
     storeSession env0 rsEmpty "abc" (.str "x") = (.ok (), rsEmpty)) :=
  ⟨rfl, c3_null_client_degrades env0 rsEmpty rsEmpty "abc" (.str "x") rfl⟩

/-- Claim C9: with the store reachable, storeSession is idempotent: writing
    identical data twice succeeds, leaves the store in exactly the state of
    the first write, holds exactly one record under the (namespaced) id
    equal to the data with its TTL reset to 3600, and touches no other
    key. -/
theorem c9_storeSession_idempotent (env : Env) (hops : env.opsOk = true)
    (cp : Option (Except String Unit)) (vals : String → Option SessionValue)
    (ttls : String → Option Nat) (mc : Nat) (sid : String) (d : SessionValue) :
    (storeSession env ⟨some ⟨true⟩, cp, vals, ttls, mc⟩ sid d).1 = .ok () ∧
    storeSession env (storeSession env ⟨some ⟨true⟩, cp, vals, ttls, mc⟩ sid d).2 sid d
      = storeSession env ⟨some ⟨true⟩, cp, vals, ttls, mc⟩ sid d ∧
    (storeSession env ⟨some ⟨true⟩, cp, vals, ttls, mc⟩ sid d).2.values (sessionKey sid)
      = some d ∧
    (storeSession env ⟨some ⟨true⟩, cp, vals, ttls, mc⟩ sid d).2.ttl (sessionKey sid)
      = some 3600 ∧
    ∀ k, k ≠ sessionKey sid →
      (storeSession env ⟨some ⟨true⟩, cp, vals, ttls, mc⟩ sid d).2.values k = vals k := by
  refine ⟨?_, ?_, ?_, ?_, ?_⟩
  · simp [storeSession, getRedisClient, hops]
  · simp [storeSession, getRedisClient, hops, setKey_idem]
  · simp [storeSession, getRedisClient, hops, setKey_self]
  · simp [storeSession, getRedisClient, hops, setKey_self]
  · intro k hk
    simp [storeSession, getRedisClient, hops, setKey_other _ _ _ _ hk]

/-- Claim C9 witness: a concrete healthy store. -/
theorem c9_storeSession_idempotent_witness :
    env0.opsOk = true ∧
    ((storeSession env0 ⟨some ⟨true⟩, some (.ok ()), fun _ => none, fun _ => none, 0⟩
        "abc" (.str "x")).1 = .ok () ∧
     storeSession env0
        (storeSession env0 ⟨some ⟨true⟩, some (.ok ()), fun _ => none, fun _ => none, 0⟩
          "abc" (.str "x")).2 "abc" (.str "x")
      = storeSession env0 ⟨some ⟨true⟩, some (.ok ()), fun _ => none, fun _ => none, 0⟩
          "abc" (.str "x") ∧
     (storeSession env0 ⟨some ⟨true⟩, some (.ok ()), fun _ => none, fun _ => none, 0⟩
        "abc" (.str "x")).2.values (sessionKey "abc") = some (.str "x") ∧
     (storeSession env0 ⟨some ⟨true⟩, some (.ok ()), fun _ => none, fun _ => none, 0⟩
        "abc" (.str "x")).2.ttl (sessionKey "abc") = some 3600 ∧
     ∀ k, k ≠ sessionKey "abc" →
       (storeSession env0 ⟨some ⟨true⟩, some (.ok ()), fun _ => none, fun _ => none, 0⟩
          "abc" (.str "x")).2.values k = none) :=
  ⟨rfl, c9_storeSession_idempotent env0 rfl _ _ _ _ "abc" (.str "x")⟩

/-- Claim C4: an operation whose first result carries the session-update
    directive (both ids truthy) makes the wrapper reconnect exactly once
    with the new id and retry exactly once, returning the handled result of
    that retry (here the retry succeeds; its payload, not the original one,
    is what comes back). -/
theorem c4_update_reconnect_retry_once {α β : Type}
    (b : Nat → Except ClientErr (OpResult α)) (handle : OpResult α → β)
    (r1 r2 : OpResult α) (newId : String)
    (h0 : b 0 = .ok r1) (hu : sessionUpdateRequested r1 = some newId)
    (h1 : b 1 = .ok r2) :
    makeRequestWithSessionCheck b handle =
      ⟨.ok (handle r2), 2, [.reconnectWithNewSession newId]⟩ := by
  simp [makeRequestWithSessionCheck, h0, hu, h1]

/-- A concrete operation: first result carries the directive, the retry
    returns a plain result. -/
def opUpdateThenOk : Nat → Except ClientErr (OpResult Nat) :=
  fun n =>
    if n = 0 then .ok ⟨0, true, some ⟨some "old-id", some "new-id"⟩⟩
    else .ok ⟨1, false, none⟩

/-- Claim C4 witness. -/
theorem c4_update_reconnect_retry_once_witness :
    opUpdateThenOk 0 = .ok ⟨0, true, some ⟨some "old-id", some "new-id"⟩⟩ ∧
    sessionUpdateRequested
      (⟨0, true, some ⟨some "old-id", some "new-id"⟩⟩ : OpResult Nat) = some "new-id" ∧
    opUpdateThenOk 1 = .ok ⟨1, false, none⟩ ∧
    makeRequestWithSessionCheck opUpdateThenOk (fun r => r.payload) =
      ⟨.ok 1, 2, [.reconnectWithNewSession "new-id"]⟩ :=
  ⟨rfl, rfl, rfl,
   c4_update_reconnect_retry_once opUpdateThenOk (fun r => r.payload) _ _ _ rfl rfl rfl⟩

/-- An operation that always throws the already-initialized error. -/
def opAlwaysAlreadyInit : Nat → Except ClientErr (OpResult Nat) :=
  fun _ => .error ⟨"Server already initialized", false⟩

/-- Claim C5, counterexample: when the original attempt throws the
    already-initialized error, the wrapper retries, and on that retry
    failing escalates and retries once more - the operation runs three
    times, two extra beyond the original, and the first retry failure was
    auto-retried rather than propagated. -/
theorem c5_already_initialized_two_extra_retries :
    (makeRequestWithSessionCheck opAlwaysAlreadyInit (fun r => r.payload)).calls = 3 ∧
    ¬ ((makeRequestWithSessionCheck opAlwaysAlreadyInit (fun r => r.payload)).calls ≤ 1 + 1) := by
  constructor
  · rfl
  · intro h
    rw [show (makeRequestWithSessionCheck opAlwaysAlreadyInit (fun r => r.payload)).calls = 3
      from rfl] at h
    omega

/-- The bound on the catch block of the wrapper: entered with k prior
    executions, the last of which threw e, it runs the operation at most
    twice more - twice only on the already-initialized branch - and any
    error it finally reports is exactly the error of the last execution. -/
theorem recoverFromError_bound {α β : Type}
    (b : Nat → Except ClientErr (OpResult α)) (handle : OpResult α → β)
    (e : ClientErr) (k : Nat) (tr : List RecoveryAction)
    (hprev : b (k - 1) = .error e) :
    (recoverFromError b handle e k tr).calls ≤ k + 2 ∧
    (e.alreadyInit = false → (recoverFromError b handle e k tr).calls ≤ k + 1) ∧
    (∀ e2, (recoverFromError b handle e k tr).result = .error e2 →
      b ((recoverFromError b handle e k tr).calls - 1) = .error e2) := by
  unfold recoverFromError
  by_cases hrs : e.resetSession
  · cases hbk : b k <;> simp [hrs, hbk]
  · by_cases hai : e.alreadyInit
    · cases hbk : b k with
      | ok r => simp [hrs, hai, hbk]
      | error re =>
        cases hbk2 : b (k + 1) <;> simp [hrs, hai, hbk, hbk2]
    · by_cases hni : e.notInit <;> by_cases hsn : e.sessionNotFound
      · cases hbk : b k <;> simp [hrs, hai, hni, hsn, hbk]
      · cases hbk : b k <;> simp [hrs, hai, hni, hsn, hbk]
      · cases hbk : b k <;> simp [hrs, hai, hni, hsn, hbk]
      · cases hbk : b k <;> simp [hrs, hai, hni, hsn, hbk] <;> exact hprev

/-- Claim C5 as amended: on an error-recovery path entered because the
    original attempt failed, the operation is re-executed at most TWO extra
    times beyond the original - two happen only when the error text matches
    "Server already initialized" (the first retry failure there escalates
    to forceCompletelyNewSession and one final retry); on every other
    matching path at most one extra execution occurs; and whatever error the
    wrapper finally reports is the error of its last execution, propagated
    with no further automatic retry. -/
theorem c5_recovery_retry_bound {α β : Type}
    (b : Nat → Except ClientErr (OpResult α)) (handle : OpResult α → β)
    (e : ClientErr) (h0 : b 0 = .error e) :
    (makeRequestWithSessionCheck b handle).calls ≤ 1 + 2 ∧
    (e.alreadyInit = false → (makeRequestWithSessionCheck b handle).calls ≤ 1 + 1) ∧
    (∀ e2, (makeRequestWithSessionCheck b handle).result = .error e2 →
      b ((makeRequestWithSessionCheck b handle).calls - 1) = .error e2) := by
  have hmain : makeRequestWithSessionCheck b handle = recoverFromError b handle e 1 [] := by
    simp [makeRequestWithSessionCheck, h0]
  rw [hmain]
  exact recoverFromError_bound b handle e 1 [] (by simpa using h0)

/-- An operation that always throws a session-not-found error. -/
def opAlwaysSessionNotFound : Nat → Except ClientErr (OpResult Nat) :=
  fun _ => .error ⟨"Session not found", false⟩

/-- Claim C5 witness (for the amended bound). -/
theorem c5_recovery_retry_bound_witness :
    opAlwaysSessionNotFound 0 = .error ⟨"Session not found", false⟩ ∧
    ((makeRequestWithSessionCheck opAlwaysSessionNotFound (fun r => r.payload)).calls ≤ 1 + 2 ∧
     ((⟨"Session not found", false⟩ : ClientErr).alreadyInit = false →
       (makeRequestWithSessionCheck opAlwaysSessionNotFound (fun r => r.payload)).calls ≤ 1 + 1) ∧
     (∀ e2,
       (makeRequestWithSessionCheck opAlwaysSessionNotFound (fun r => r.payload)).result = .error e2 →
       opAlwaysSessionNotFound
         ((makeRequestWithSessionCheck opAlwaysSessionNotFound (fun r => r.payload)).calls - 1)
         = .error e2)) :=
  ⟨rfl, c5_recovery_retry_bound opAlwaysSessionNotFound (fun r => r.payload) _ rfl⟩

theorem initGuardRun_pending (n : Nat) (s : InitGuardState) (p : Nat)
    (h : s.pendingInit = some p) :
    initGuardRun n s = (s, List.replicate n p) := by
  induction n with
  | zero => simp [initGuardRun]
  | succ m ih => simp [initGuardRun, initGuardArrive, h, ih, List.replicate_succ]

/-- Claim C6: any number n of first-time callers reaching the guard while
    the endpoint is Uninitialized (no pending promise) start exactly one
    initialization sequence, and every caller awaits the same shared
    promise (the one the first arrival published). The synchronous
    check-and-set runs without interleaving in the JS event loop, so each
    arrival is one atomic step; initializeServer is replaced by the counting
    stand-in initStarts. -/
theorem c6_concurrent_init_single_start (n : Nat) (hn : 1 ≤ n) (k i : Nat) :
    (initGuardRun n ⟨none, k, i⟩).1.initStarts = i + 1 ∧
    ∀ p ∈ (initGuardRun n ⟨none, k, i⟩).2, p = k := by
  obtain ⟨m, rfl⟩ : ∃ m, n = m + 1 := ⟨n - 1, (Nat.succ_pred_eq_of_pos hn).symm⟩
  have harr : initGuardArrive ⟨none, k, i⟩ = (k, ⟨some k, k + 1, i + 1⟩) := rfl
  have hrest := initGuardRun_pending m ⟨some k, k + 1, i + 1⟩ k rfl
  constructor
  · simp [initGuardRun, harr, hrest]
  · intro p hp
    simp [initGuardRun, harr, hrest, List.mem_replicate] at hp
    rcases hp with hp | ⟨-, hp⟩ <;> exact hp

/-- A concrete inbound POST request for the adapter. -/
def reqEx : InboundRequest :=
  { method := "POST", pathname := "/mcp-stateless", search := "",
    headers := [("content-type", "application/json")] }

/-- Claim C7, counterexample: with an empty body the adapter pushes neither
    the body nor the end-of-stream marker (the push pair sits under a
    truthiness guard on the body), so the stream never signals
    end-of-stream - the claim says an empty body signals end-of-stream
    immediately. -/
theorem c7_empty_body_never_ends :
    (createFakeIncomingMessage reqEx "" (some "S")).events = [] ∧
    ((createFakeIncomingMessage reqEx "" (some "S")).events.contains
      StreamEvent.eos) = false :=
  ⟨rfl, rfl⟩

/-- Claim C7 as amended: the adapted request copies the method, rebuilds the
    url as path plus query, sets the session header to the supplied
    (non-empty) session id while leaving every other header as inbound, and
    its body stream emits a NON-empty body once followed by end-of-stream;
    an empty body emits nothing at all and never signals end-of-stream. -/
theorem c7_createFakeIncomingMessage_spec (req : InboundRequest) (body : String)
    (sid : String) (hs : sid ≠ "") :
    (createFakeIncomingMessage req body (some sid)).method = req.method ∧
    (createFakeIncomingMessage req body (some sid)).url = req.pathname ++ req.search ∧
    lookupField (createFakeIncomingMessage req body (some sid)).headers
      "x-mcp-session-id" = some sid ∧
    (∀ k, k ≠ "x-mcp-session-id" →
      lookupField (createFakeIncomingMessage req body (some sid)).headers k
        = lookupField req.headers k) ∧
    (createFakeIncomingMessage req body (some sid)).events
      = (if body = "" then [] else [.data body, .eos]) := by
  refine ⟨rfl, rfl, ?_, ?_, ?_⟩
  · simp [createFakeIncomingMessage, strTruthy, hs, lookupField_setField_self]
  · intro k hk
    simp [createFakeIncomingMessage, strTruthy, hs,
      lookupField_setField_other _ _ _ _ hk]
  · by_cases hb : body = "" <;> simp [createFakeIncomingMessage, hb]

/-- The JSON body of the testable-property instance. -/
def bodyEx : String := "\x7b\"a\":1\x7d"

/-- Claim C7 witness: the testable-property instance (POST /mcp-stateless,
    session id S, a JSON body). -/
theorem c7_createFakeIncomingMessage_spec_witness :
    ("S" : String) ≠ "" ∧
    ((createFakeIncomingMessage reqEx bodyEx (some "S")).method = "POST" ∧
     (createFakeIncomingMessage reqEx bodyEx (some "S")).url = "/mcp-stateless" ++ "" ∧
     lookupField (createFakeIncomingMessage reqEx bodyEx (some "S")).headers
       "x-mcp-session-id" = some "S" ∧
     (∀ k, k ≠ "x-mcp-session-id" →
       lookupField (createFakeIncomingMessage reqEx bodyEx (some "S")).headers k
         = lookupField reqEx.headers k) ∧
     (createFakeIncomingMessage reqEx bodyEx (some "S")).events
       = (if bodyEx = "" then [] else [.data bodyEx, .eos])) :=
  ⟨by decide, c7_createFakeIncomingMessage_spec reqEx bodyEx "S" (by decide)⟩

/-- A request whose session header is present but empty while the query
    carries an id. -/
def resolverCex : ResolverRequest :=
  { headers := [("x-mcp-session-id", "")],
    queryParams := [("sessionId", "Q")], urlParses := true }

/-- Claim C8, counterexample: the session header is present (with value "")
    yet the resolver does not return its value - JS truthiness treats the
    empty header as absent and the query parameter wins. -/
theorem c8_empty_header_not_returned :
    lookupField resolverCex.headers "x-mcp-session-id" = some "" ∧
    getRequestSessionId resolverCex = some "Q" :=
  ⟨rfl, rfl⟩

/-- Claim C8 as amended: the resolver returns the session header when it is
    present AND non-empty, else the sessionId query parameter of a
    parseable URL when present and non-empty, else absent - stated as
    equality with the spec-side resolver built from those words (both are
    pure functions of the request; the embedding is effect-free by
    construction). -/
theorem c8_getRequestSessionId_eq_spec (req : ResolverRequest) :
    getRequestSessionId req = resolveSessionIdSpec req := by
  unfold getRequestSessionId resolveSessionIdSpec keepNonEmpty
  cases hh : lookupField req.headers "x-mcp-session-id" with
  | none =>
    cases hq : lookupField req.queryParams "sessionId" with
    | none => by_cases hu : req.urlParses <;> simp [hu]
    | some q => by_cases hu : req.urlParses <;> by_cases hqe : q = "" <;> simp [hu, hqe]
  | some s =>
    by_cases hse : s = ""
    · cases hq : lookupField req.queryParams "sessionId" with
      | none => by_cases hu : req.urlParses <;> simp [hu, hse]
      | some q => by_cases hu : req.urlParses <;> by_cases hqe : q = "" <;> simp [hu, hse, hqe]
    · simp [hse]

/-- Claim C10: the POST handler injects __session_update into the success
    result exactly when a new session was minted (isNewSession with a
    truthy new id), the client presented a truthy session id, AND the
    JSON-RPC method is exactly tools/list; under the (factual) assumption
    that the transport response does not already carry the field, every
    other method passes the transport response through without it (the
    internal tools result needs no such assumption: the special branch
    overrides the field). -/
theorem c10_session_update_only_tools_list
    (clientSid newSid : Option String) (isNew : Bool) (method : Option String)
    (toolsResult transportResult : RpcResult)
    (hr : transportResult.hasUpdateField = false) :
    ((postResponseResult clientSid isNew newSid method toolsResult
        transportResult).hasUpdateField = true
      ↔ (isNew = true ∧ strTruthy newSid = true ∧ strTruthy clientSid = true ∧
         method = some "tools/list")) := by
  unfold postResponseResult
  by_cases h1 : isNew
  · by_cases h2 : strTruthy newSid
    · by_cases h3 : strTruthy clientSid
      · by_cases h4 : method = some "tools/list" <;> simp [h1, h2, h3, h4, hr]
      · simp [h1, h2, h3, hr]
    · simp [h1, h2, hr]
  · simp [h1, hr]

/-- Claim C10 witness: a minted session with a presented id and the
    tools/list method carries the update field; the same situation with
    tools/call does not. -/
theorem c10_session_update_only_tools_list_witness :
    (({ hasUpdateField := false, updateOld := none, updateNew := none } : RpcResult).hasUpdateField
      = false) ∧
    (((postResponseResult (some "old") true (some "new") (some "tools/list")
        { hasUpdateField := false, updateOld := none, updateNew := none }
        { hasUpdateField := false, updateOld := none, updateNew := none }).hasUpdateField = true
      ↔ (true = true ∧ strTruthy (some "new") = true ∧ strTruthy (some "old") = true ∧
         (some "tools/list" : Option String) = some "tools/list"))) :=
  ⟨rfl,
   c10_session_update_only_tools_list (some "old") (some "new") true (some "tools/list")
     { hasUpdateField := false, updateOld := none, updateNew := none }
     { hasUpdateField := false, updateOld := none, updateNew := none } rfl⟩

theorem refreshedRecord_lookups (f0 : List (String × String)) (now : String) :
    lookupField (setField (setField f0 "lastAccessed" now) "status" "active")
      "lastAccessed" = some now ∧
    lookupField (setField (setField f0 "lastAccessed" now) "status" "active")
      "status" = some "active" := by
  constructor
  · rw [lookupField_setField_other _ _ _ _ (by decide)]
    exact lookupField_setField_self _ _ _
  · exact lookupField_setField_self _ _ _

/-- Claim C1: a non-empty session id whose (truthy) record is present in
    the store, presented to a Ready endpoint (server and transport live and
    connected), yields the existing endpoint with isNewSession false and no
    newSessionId; the stored record is refreshed in place (lastAccessed set
    to the current timestamp, status forced active) with every other key
    untouched and no new session minted; and the transport is force-rebound
    (one caught server.connect) exactly when its bound id differs, the
    manager being left completely unchanged when it already matches. -/
theorem c1_existing_session_refresh
    (env : Env) (hops : env.opsOk = true)
    (cp ip : Option (Except String Unit)) (vals : String → Option SessionValue)
    (ttls : String → Option Nat) (mc : Nat) (tsid : Option String) (si : Bool)
    (gen cc : Nat) (sid : String) (hsid : sid ≠ "")
    (v : SessionValue) (hv : vals (sessionKey sid) = some v)
    (hvt : v.rawTruthy = true)
    (R : (Except String GstResult × ManagerState) × RedisState)
    (hR : R = getServerAndTransport env ⟨true, true, tsid, true, ip, si, gen, cc⟩
      ⟨some ⟨true⟩, cp, vals, ttls, mc⟩ (some sid)) :
    R.1.1 = .ok ⟨false, none, gen⟩ ∧
    R.2.values (sessionKey sid) = some (.obj
      (setField (setField v.objFields "lastAccessed" env.now) "status" "active")) ∧
    (∀ f, R.2.values (sessionKey sid) = some (.obj f) →
      lookupField f "lastAccessed" = some env.now ∧
      lookupField f "status" = some "active") ∧
    (∀ k, k ≠ sessionKey sid → R.2.values k = vals k) ∧
    R.2.mintCalls = mc ∧
    (tsid = some sid → R.1.2 = ⟨true, true, tsid, true, ip, si, gen, cc⟩) ∧
    (tsid ≠ some sid → R.1.2.transportSessionId = some sid ∧
      R.1.2.connectCalls = cc + 1 ∧ R.1.2.endpointGen = gen) := by
  by_cases htsid : tsid = some sid
  · have hgst : R =
        ((.ok ⟨false, none, gen⟩, ⟨true, true, tsid, true, ip, si, gen, cc⟩),
         ⟨some ⟨true⟩, cp,
          setKey vals (sessionKey sid)
            (.obj (setField (setField v.objFields "lastAccessed" env.now)
              "status" "active")),
          setKey ttls (sessionKey sid) 3600, mc⟩) := by
      rw [hR]
      simp [getServerAndTransport, getSession, getRedisClient, readyFound,
        storeSession, strTruthy, hsid, hops, hv, hvt, htsid]
    rw [hgst]
    refine ⟨rfl, by simp [setKey_self], ?_, ?_, rfl, fun _ => rfl,
      fun hne => absurd htsid hne⟩
    · intro f hf
      rw [show (⟨some ⟨true⟩, cp,
          setKey vals (sessionKey sid)
            (.obj (setField (setField v.objFields "lastAccessed" env.now)
              "status" "active")),
          setKey ttls (sessionKey sid) 3600, mc⟩ : RedisState).values
            = setKey vals (sessionKey sid)
              (.obj (setField (setField v.objFields "lastAccessed" env.now)
                "status" "active")) from rfl, setKey_self] at hf
      obtain rfl : setField (setField v.objFields "lastAccessed" env.now)
          "status" "active" = f := by
        have := Option.some.inj hf
        exact SessionValue.obj.inj this
      exact refreshedRecord_lookups v.objFields env.now
    · intro k hk
      simpa using setKey_other vals (sessionKey sid) k _ hk
  · have hgst : R =
        ((.ok ⟨false, none, gen⟩,
          ⟨true, true, some sid, env.serverConnectOk cc, ip, si, gen, cc + 1⟩),
         ⟨some ⟨true⟩, cp,
          setKey vals (sessionKey sid)
            (.obj (setField (setField v.objFields "lastAccessed" env.now)
              "status" "active")),
          setKey ttls (sessionKey sid) 3600, mc⟩) := by
      rw [hR]
      simp [getServerAndTransport, getSession, getRedisClient, readyFound,
        storeSession, tryReconnect, strTruthy, hsid, hops, hv, hvt, htsid]
    rw [hgst]
    refine ⟨rfl, by simp [setKey_self], ?_, ?_, rfl,
      fun heq => absurd heq htsid, fun _ => ⟨rfl, rfl, rfl⟩⟩
    · intro f hf
      rw [show (⟨some ⟨true⟩, cp,
          setKey vals (sessionKey sid)
            (.obj (setField (setField v.objFields "lastAccessed" env.now)
              "status" "active")),
          setKey ttls (sessionKey sid) 3600, mc⟩ : RedisState).values
            = setKey vals (sessionKey sid)
              (.obj (setField (setField v.objFields "lastAccessed" env.now)
                "status" "active")) from rfl, setKey_self] at hf
      obtain rfl : setField (setField v.objFields "lastAccessed" env.now)
          "status" "active" = f := by
        have := Option.some.inj hf
        exact SessionValue.obj.inj this
      exact refreshedRecord_lookups v.objFields env.now
    · intro k hk
      simpa using setKey_other vals (sessionKey sid) k _ hk

/-- A keyspace holding exactly one session record, under id abc. -/
def valsC1 : String → Option SessionValue :=
  fun k => if k = sessionKey "abc" then some (.obj [("created", "t0")]) else none

/-- Claim C1 witness: a Ready endpoint bound to a different id, presented
    with the known id abc. -/
theorem c1_existing_session_refresh_witness :
    env0.opsOk = true ∧
    ("abc" : String) ≠ "" ∧
    valsC1 (sessionKey "abc") = some (.obj [("created", "t0")]) ∧
    (SessionValue.obj [("created", "t0")]).rawTruthy = true ∧
    (getServerAndTransport env0
        ⟨true, true, some "other", true, some (.ok ()), false, 1, 0⟩
        ⟨some ⟨true⟩, some (.ok ()), valsC1, fun _ => none, 0⟩ (some "abc")).1.1
      = .ok ⟨false, none, 1⟩ :=
  ⟨rfl, by decide, rfl, rfl,
   (c1_existing_session_refresh env0 rfl (some (.ok ())) (some (.ok ())) valsC1
      (fun _ => none) 0 (some "other") false 1 0 "abc" (by decide)
      (.obj [("created", "t0")]) rfl rfl _ rfl).1⟩

/-- Claim C2: a non-empty session id absent from the store, presented to a
    Ready endpoint, makes getServerAndTransport mint exactly one new id via
    createNewSession (the mint counter increments by one), return
    isNewSession true with that id as newSessionId on the existing
    endpoint, bind the transport to the new id, and store the initial
    record (created timestamp, status active, TTL 3600) under the new id
    only - so a subsequent getSession of the new id returns it. -/
theorem c2_unknown_session_mints
    (env : Env) (hops : env.opsOk = true)
    (cp ip : Option (Except String Unit)) (vals : String → Option SessionValue)
    (ttls : String → Option Nat) (mc : Nat) (tsid : Option String) (si : Bool)
    (gen cc : Nat) (sid : String) (hsid : sid ≠ "")
    (habs : vals (sessionKey sid) = none)
    (R : (Except String GstResult × ManagerState) × RedisState)
    (hR : R = getServerAndTransport env ⟨true, true, tsid, true, ip, si, gen, cc⟩
      ⟨some ⟨true⟩, cp, vals, ttls, mc⟩ (some sid)) :
    R.1.1 = .ok ⟨true, some env.freshId, gen⟩ ∧
    R.2.mintCalls = mc + 1 ∧
    (getSession env R.2 env.freshId).1
      = .ok (some (.obj [("created", env.now), ("status", "active")])) ∧
    R.2.values (sessionKey env.freshId)
      = some (.obj [("created", env.now), ("status", "active")]) ∧
    R.2.ttl (sessionKey env.freshId) = some 3600 ∧
    (∀ k, k ≠ sessionKey env.freshId → R.2.values k = vals k) ∧
    R.1.2.transportSessionId = some env.freshId ∧
    R.1.2.endpointGen = gen := by
  have hgst : R =
      ((.ok ⟨true, some env.freshId, gen⟩,
        ⟨true, true, some env.freshId, env.serverConnectOk cc, ip, si, gen, cc + 1⟩),
       ⟨some ⟨true⟩, cp,
        setKey vals (sessionKey env.freshId)
          (.obj [("created", env.now), ("status", "active")]),
        setKey ttls (sessionKey env.freshId) 3600, mc + 1⟩) := by
    rw [hR]
    simp [getServerAndTransport, getSession, getRedisClient, readyNotFound,
      createNewSession, storeSession, tryReconnect, strTruthy, hsid, hops, habs]
  rw [hgst]
  refine ⟨rfl, rfl, ?_, by simp [setKey_self], by simp [setKey_self], ?_, rfl, rfl⟩
  · simp [getSession, getRedisClient, hops, setKey_self, SessionValue.rawTruthy]
  · intro k hk
    simpa using setKey_other vals (sessionKey env.freshId) k _ hk

/-- Claim C2 witness: an empty store presented with the unknown id abc. -/
theorem c2_unknown_session_mints_witness :
    env0.opsOk = true ∧
    ("abc" : String) ≠ "" ∧
    ((fun _ => none : String → Option SessionValue) (sessionKey "abc") = none) ∧
    (getServerAndTransport env0
        ⟨true, true, some "abc", true, some (.ok ()), false, 1, 0⟩
        ⟨some ⟨true⟩, some (.ok ()), fun _ => none, fun _ => none, 0⟩
        (some "abc")).1.1
      = .ok ⟨true, some env0.freshId, 1⟩ :=
  ⟨rfl, by decide, rfl,
   (c2_unknown_session_mints env0 rfl (some (.ok ())) (some (.ok ()))
      (fun _ => none) (fun _ => none) 0 (some "abc") false 1 0 "abc" (by decide)
      rfl _ rfl).1⟩

/-- Claim C6 witness: three concurrent first-time callers. -/
theorem c6_concurrent_init_single_start_witness :
    1 ≤ 3 ∧
    ((initGuardRun 3 ⟨none, 5, 0⟩).1.initStarts = 0 + 1 ∧
     ∀ p ∈ (initGuardRun 3 ⟨none, 5, 0⟩).2, p = 5) :=
  ⟨by decide, c6_concurrent_init_single_start 3 (by decide) 5 0⟩
